import Mathlib

/-!
Shallow embedding of the auth service of `kanban-app`
(`services/auth/app`): the JWT token codec, the refresh-token store, the
rotation engine (login / refresh / logout endpoints), public registration
and the cookie-based authorization gate.  All definitions are translated
from the Python source; machine-level details that the claims do not touch
(HTTP plumbing, metrics, logging, rate limiting) are omitted.

Conventions:
* Timestamps are integers (Unix seconds), as produced by
  `int(datetime.timestamp())` in the source.
* A signed JWT string is modelled as a `SignedToken` structure carrying its
  claims together with the key and algorithm it was signed with;
  `jwtDecode` models `jose.jwt.decode(token, key, algorithms=[alg])`:
  signature/algorithm are checked first (a failure is `JWTError`,
  i.e. malformed), then the `exp` claim (`ExpiredSignatureError` exactly
  when `exp < now`, python-jose's check with zero leeway).
* Database commits are made explicit: each endpoint returns, together with
  its result, the ordered list of states committed by `db.commit()` calls.
-/

namespace KanbanAuth

/-- JWT claims used by the service: `sub`, `jti`, `iat`, `role` are set per
token kind; `exp` is always present (both token creators add it). -/
structure Claims where
  sub : Option String
  jti : Option String
  iat : Option Int
  role : Option String
  exp : Int
deriving DecidableEq, Repr

/-- A signed JWT, modelled as its payload plus the signing key and
algorithm recorded in the header. -/
structure SignedToken where
  claims : Claims
  key : String
  alg : String
deriving DecidableEq, Repr

/-- Result of `jose.jwt.decode`. -/
inductive DecodeResult
  | ok (claims : Claims)
  | expired
  | malformed
deriving DecidableEq, Repr

/-- `jwt.decode(token, key, algorithms=algs)`: the signature and the
algorithm allow-list are verified first (failure raises `JWTError`);
only then is the `exp` claim validated (`ExpiredSignatureError` iff
`exp < now`, zero leeway). -/
def jwtDecode (t : SignedToken) (key : String) (algs : List String) (now : Int) : DecodeResult :=
  if t.key = key ∧ t.alg ∈ algs then
    if t.claims.exp < now then .expired else .ok t.claims
  else .malformed

/-! ### Decimal strings: `str(user.id)`, `sub.isdigit()` and `int(sub)` -/

/-- ASCII digit test, as `str.isdigit` behaves on ASCII strings. -/
def isDigitChar (c : Char) : Bool :=
  48 ≤ c.toNat && c.toNat ≤ 57

/-- Numeric value of a digit character. -/
def charVal (c : Char) : Nat := c.toNat - 48

/-- `s.isdigit()` restricted to ASCII: non-empty and all characters ASCII
digits.  Python's `str.isdigit` also accepts other Unicode digit
characters (e.g. `'٢'`, `'²'`); this restriction is exact for every
subject the service itself issues (`str(user.id)` is ASCII decimal).  The
Unicode-exact behavior is a parameter of `refresh_access_token_py`
below. -/
def isDigits (s : String) : Bool :=
  !s.data.isEmpty && s.data.all isDigitChar

/-- Value of a digit list read in base 10 (how `int` reads a digit string). -/
def decValList (l : List Char) : Nat :=
  l.foldl (fun a c => 10 * a + charVal c) 0

/-- `int(s)` for a digit string `s`. -/
def decimalValue (s : String) : Nat := decValList s.data

/-- The decimal digit character for `d < 10`. -/
def digitChar : Nat → Char
  | 0 => '0' | 1 => '1' | 2 => '2' | 3 => '3' | 4 => '4'
  | 5 => '5' | 6 => '6' | 7 => '7' | 8 => '8' | _ => '9'

/-- Fuel-driven decimal printer (most significant digit first). -/
def natDigitsAux : Nat → Nat → List Char
  | 0, _ => []
  | fuel + 1, n =>
    if n < 10 then [digitChar n]
    else natDigitsAux fuel (n / 10) ++ [digitChar (n % 10)]

/-- `str(n)` for a natural number `n`. -/
def natToString (n : Nat) : String := ⟨natDigitsAux (n + 1) n⟩

/-! ### Persistent state -/

/-- Row of the `users` table (the fields the rotation protocol touches). -/
structure UserRec where
  id : Nat
  email : String
  hashed_password : String
  role : String
  last_refresh_jti : Option String
deriving DecidableEq, Repr

/-- Row of the `refresh_tokens` table. -/
structure RefreshTokenRecord where
  jti : String
  user_id : Nat
  is_active : Bool
  expires_at : Int
deriving DecidableEq, Repr

/-- The database state seen by the auth service. -/
structure DBState where
  users : List UserRec
  tokens : List RefreshTokenRecord
deriving DecidableEq, Repr

/-- `db.get(User, uid)`. -/
def findUser (db : DBState) (uid : Nat) : Option UserRec :=
  db.users.find? (fun u => u.id == uid)

/-- `get_user_by_email` (select by email, `scalar_one_or_none`). -/
def get_user_by_email (db : DBState) (email : String) : Option UserRec :=
  db.users.find? (fun u => u.email == email)

/-- `user.last_refresh_jti = jti; db.add(user)`. -/
def setLastRefreshJti (db : DBState) (uid : Nat) (jti : Option String) : DBState :=
  { db with users := db.users.map (fun u => if u.id = uid then { u with last_refresh_jti := jti } else u) }

/-- `create_refresh_token` of `services/refresh_tokens.py` (aliased
`save_refresh_token` in the endpoint module): insert a new active record. -/
def save_refresh_token (db : DBState) (jti : String) (user_id : Nat) (expires_at : Int) : DBState :=
  { db with tokens := db.tokens ++ [{ jti := jti, user_id := user_id, is_active := true, expires_at := expires_at }] }

/-- `deactivate_refresh_token`: flip `is_active` off on the record with the
given `jti` (the `jti` column is unique, so selecting by `jti` touches at
most one row; mapping over all rows with that `jti` is the same update). -/
def deactivate_refresh_token (db : DBState) (jti : String) : DBState :=
  { db with tokens := db.tokens.map (fun t => if t.jti = jti then { t with is_active := false } else t) }

/-- `is_refresh_token_valid`: a record with this `jti` exists, is active,
and its expiry is strictly in the future. -/
def is_refresh_token_valid (db : DBState) (jti : String) (now : Int) : Bool :=
  db.tokens.any (fun t => t.jti == jti && t.is_active && decide (now < t.expires_at))

/-- `revoke_refresh_token` of `services/auth.py`.  Python's `if jti:` is a
truthiness test: it takes the single-token branch only when `jti` is a
non-empty string; `None` and `""` both fall to the revoke-all branch. -/
def revoke_refresh_token (db : DBState) (uid : Nat) (jti : Option String) (clear_jti : Bool) : DBState :=
  let tokens :=
    match jti with
    | some j =>
      if j = "" then
        db.tokens.map (fun t => if t.user_id = uid ∧ t.is_active then { t with is_active := false } else t)
      else
        db.tokens.map (fun t => if t.user_id = uid ∧ t.jti = j then { t with is_active := false } else t)
    | none =>
      db.tokens.map (fun t => if t.user_id = uid ∧ t.is_active then { t with is_active := false } else t)
  let users :=
    if clear_jti then
      db.users.map (fun u => if u.id = uid then { u with last_refresh_jti := none } else u)
    else
      db.users
  { users := users, tokens := tokens }

/-! ### Configuration and codec -/

/-- The JWT-related settings consumed by the core protocol. -/
structure Settings where
  secret_key : String
  algorithm : String
  access_token_expire_minutes : Nat
  refresh_token_expire_minutes : Nat
deriving DecidableEq, Repr

/-- `create_access_token` over payload `{sub, role}`: adds `exp`. -/
def create_access_token (cfg : Settings) (sub role : String) (now : Int) : SignedToken :=
  { claims := { sub := some sub, jti := none, iat := none, role := some role,
                exp := now + 60 * (cfg.access_token_expire_minutes : Int) },
    key := cfg.secret_key, alg := cfg.algorithm }

/-- `create_refresh_token` of `core/security.py` over payload
`{sub, iat, jti}`: adds `exp`. -/
def create_refresh_token (cfg : Settings) (sub jti : String) (now : Int) : SignedToken :=
  { claims := { sub := some sub, jti := some jti, iat := some now, role := none,
                exp := now + 60 * (cfg.refresh_token_expire_minutes : Int) },
    key := cfg.secret_key, alg := cfg.algorithm }

/-! ### Endpoint results -/

/-- The distinct HTTP error responses raised by the modelled endpoints. -/
inductive AuthError
  | incorrectCredentials   -- 401 "Incorrect email or password"
  | expiredRefresh         -- 401 "Refresh token expired"
  | invalidRefresh         -- 401 "Invalid refresh token"
  | invalidPayloadErr      -- 401 "Invalid token payload"
  | userGone               -- 401 "User no longer exists"
  | invalidOrReused        -- 401 "Refresh token invalid or reused"
  | notAuthenticated       -- 401 "Not authenticated"
  | invalidTokenErr        -- 401 "Invalid token"   (authorization gate)
  | missingSubject         -- 401 "Invalid token: missing subject"
  | userNotFound           -- 401 "User not found"
  | uncaughtValueError     -- int(sub) raises ValueError, no handler catches it
deriving DecidableEq, Repr

/-- The `detail` string of each error response. -/
def AuthError.detail : AuthError → String
  | .incorrectCredentials => "Incorrect email or password"
  | .expiredRefresh => "Refresh token expired"
  | .invalidRefresh => "Invalid refresh token"
  | .invalidPayloadErr => "Invalid token payload"
  | .userGone => "User no longer exists"
  | .invalidOrReused => "Refresh token invalid or reused"
  | .notAuthenticated => "Not authenticated"
  | .invalidTokenErr => "Invalid token"
  | .missingSubject => "Invalid token: missing subject"
  | .userNotFound => "User not found"
  | .uncaughtValueError => "unhandled ValueError"

/-- The token pair returned by login and refresh. -/
structure Token where
  access_token : SignedToken
  refresh_token : SignedToken
  token_type : String
deriving DecidableEq, Repr

instance {ε α : Type} [DecidableEq ε] [DecidableEq α] : DecidableEq (Except ε α)
  | .ok a, .ok b =>
    if h : a = b then isTrue (by rw [h]) else isFalse (fun hc => by cases hc; exact h rfl)
  | .ok _, .error _ => isFalse (fun hc => by cases hc)
  | .error _, .ok _ => isFalse (fun hc => by cases hc)
  | .error a, .error b =>
    if h : a = b then isTrue (by rw [h]) else isFalse (fun hc => by cases hc; exact h rfl)

/-- Result of an endpoint call, with the ordered list of database states
committed by its `db.commit()` calls (`commits = []` means no commit). -/
structure Outcome where
  result : Except AuthError Token
  commits : List DBState
deriving DecidableEq, Repr

/-- The persisted state after the call: the last committed state, or the
initial state if nothing was committed. -/
def finalState (db : DBState) (o : Outcome) : DBState :=
  o.commits.getLastD db

/-! ### Endpoints (`api/v1/users.py`) -/

/-- `login_user` (`POST /token`).  `verify` is passlib's
`verify_password`; `jti` is the freshly drawn `str(uuid4())`.  On success
the pointer update and the record insert are committed separately, in that
order, exactly as the two `await db.commit()` calls in the source. -/
def login_user (cfg : Settings) (verify : String → String → Bool) (db : DBState)
    (username password : String) (now : Int) (jti : String) : Outcome :=
  match get_user_by_email db username with
  | none => { result := .error .incorrectCredentials, commits := [] }
  | some user =>
    if verify password user.hashed_password then
      let access_token := create_access_token cfg (natToString user.id) user.role now
      let refresh_token := create_refresh_token cfg (natToString user.id) jti now
      let db1 := setLastRefreshJti db user.id (some jti)
      let db2 := save_refresh_token db1 jti user.id (now + 60 * (cfg.refresh_token_expire_minutes : Int))
      { result := .ok { access_token := access_token, refresh_token := refresh_token, token_type := "bearer" },
        commits := [db1, db2] }
    else
      { result := .error .incorrectCredentials, commits := [] }

/-- `refresh_access_token` (`POST /refresh`).  `newJti` is the freshly
drawn `str(uuid4())`.  The two reuse/staleness failure branches call
`revoke_refresh_token(db, user, jti=jti, clear_jti=False)`, which commits;
the success branch commits the old record's deactivation first and then,
in a second commit, the pointer update together with the new record.
Subject validation here uses the ASCII restrictions `isDigits` and
`decimalValue` of Python's `str.isdigit` and `int`; this is exact for
every subject the service issues.  The Unicode-exact generalization, with
the runtime's `str.isdigit` and `int` supplied as parameters, is
`refresh_access_token_py` below, which coincides with this function when
those parameters are instantiated to the ASCII restrictions. -/
def refresh_access_token (cfg : Settings) (db : DBState) (tok : SignedToken)
    (now : Int) (newJti : String) : Outcome :=
  match jwtDecode tok cfg.secret_key [cfg.algorithm] now with
  | .expired => { result := .error .expiredRefresh, commits := [] }
  | .malformed => { result := .error .invalidRefresh, commits := [] }
  | .ok payload =>
    match payload.sub with
    | none => { result := .error .invalidPayloadErr, commits := [] }
    | some s =>
      if isDigits s then
        match payload.jti with
        | none => { result := .error .invalidRefresh, commits := [] }
        | some jti =>
          let user_id := decimalValue s
          match findUser db user_id with
          | none => { result := .error .userGone, commits := [] }
          | some user =>
            if user.last_refresh_jti = some jti then
              if is_refresh_token_valid db jti now then
                let access_token := create_access_token cfg (natToString user_id) user.role now
                let new_refresh_token := create_refresh_token cfg (natToString user_id) newJti now
                let db1 := deactivate_refresh_token db jti
                let db2 := save_refresh_token (setLastRefreshJti db1 user_id (some newJti))
                  newJti user_id (now + 60 * (cfg.refresh_token_expire_minutes : Int))
                { result := .ok { access_token := access_token, refresh_token := new_refresh_token, token_type := "bearer" },
                  commits := [db1, db2] }
              else
                let db1 := revoke_refresh_token db user_id (some jti) false
                { result := .error .invalidOrReused, commits := [db1] }
            else
              let db1 := revoke_refresh_token db user_id (some jti) false
              { result := .error .invalidOrReused, commits := [db1] }
      else { result := .error .invalidPayloadErr, commits := [] }

/-- `refresh_access_token` again, with the Python runtime's Unicode
string semantics made explicit: `pyIsdigit s` is `s.isdigit()` (true also
for non-ASCII digit characters such as `'٢'` and `'²'`), and `pyToInt s`
is the behavior of `int(s)` — `some n` when the conversion succeeds
(every Unicode *decimal* digit string, e.g. `int("٢") = 2`), `none` when
it raises `ValueError` (digit-but-not-decimal subjects such as `"²"`).
The `except` clauses of the endpoint catch only `ExpiredSignatureError`
and `JWTError`, so a `ValueError` escaping `int(sub)` is unhandled (HTTP
500), modelled as `uncaughtValueError`; as in the source, `int(sub)` runs
after the `jti` isinstance check, so a missing `jti` is reported before
any conversion is attempted.  All later steps are identical to
`refresh_access_token`. -/
def refresh_access_token_py (pyIsdigit : String → Bool) (pyToInt : String → Option Nat)
    (cfg : Settings) (db : DBState) (tok : SignedToken) (now : Int) (newJti : String) : Outcome :=
  match jwtDecode tok cfg.secret_key [cfg.algorithm] now with
  | .expired => { result := .error .expiredRefresh, commits := [] }
  | .malformed => { result := .error .invalidRefresh, commits := [] }
  | .ok payload =>
    match payload.sub with
    | none => { result := .error .invalidPayloadErr, commits := [] }
    | some s =>
      if pyIsdigit s then
        match payload.jti with
        | none => { result := .error .invalidRefresh, commits := [] }
        | some jti =>
          match pyToInt s with
          | none => { result := .error .uncaughtValueError, commits := [] }
          | some user_id =>
            match findUser db user_id with
            | none => { result := .error .userGone, commits := [] }
            | some user =>
              if user.last_refresh_jti = some jti then
                if is_refresh_token_valid db jti now then
                  let access_token := create_access_token cfg (natToString user_id) user.role now
                  let new_refresh_token := create_refresh_token cfg (natToString user_id) newJti now
                  let db1 := deactivate_refresh_token db jti
                  let db2 := save_refresh_token (setLastRefreshJti db1 user_id (some newJti))
                    newJti user_id (now + 60 * (cfg.refresh_token_expire_minutes : Int))
                  { result := .ok { access_token := access_token, refresh_token := new_refresh_token, token_type := "bearer" },
                    commits := [db1, db2] }
                else
                  let db1 := revoke_refresh_token db user_id (some jti) false
                  { result := .error .invalidOrReused, commits := [db1] }
              else
                let db1 := revoke_refresh_token db user_id (some jti) false
                { result := .error .invalidOrReused, commits := [db1] }
      else { result := .error .invalidPayloadErr, commits := [] }

/-- `logout_user` (`POST /logout`) for an authenticated user `uid`:
`revoke_refresh_token(db, current_user)` (revoke all, clear the pointer),
then 204. -/
def logout_user (db : DBState) (uid : Nat) : Nat × DBState :=
  (204, revoke_refresh_token db uid none true)

/-! ### Registration (`create_user`, `register_user`) -/

/-- `UserCreatePublic`: the public registration schema carries exactly an
email and a password; request-body validation drops every other field. -/
structure UserCreatePublic where
  email : String
  password : String
deriving DecidableEq, Repr

/-- Field lookup in a JSON-object request body (first occurrence). -/
def lookupField (body : List (String × String)) (k : String) : Option String :=
  (body.find? (fun p => p.1 == k)).map (fun p => p.2)

/-- Pydantic validation of a request body against `UserCreatePublic`:
only `email` and `password` are read; any `role` field is ignored. -/
def parseUserCreatePublic (body : List (String × String)) : Option UserCreatePublic :=
  match lookupField body "email", lookupField body "password" with
  | some e, some p => some { email := e, password := p }
  | _, _ => none

/-- `create_user` of `services/auth.py`: hash the password and insert a
user with the hard-coded role `"user"`. -/
def create_user (hash : String → String) (db : DBState) (uc : UserCreatePublic) (newId : Nat) :
    DBState × UserRec :=
  let u : UserRec :=
    { id := newId, email := uc.email, hashed_password := hash uc.password,
      role := "user", last_refresh_jti := none }
  ({ db with users := db.users ++ [u] }, u)

/-- Errors of the registration endpoint. -/
inductive RegisterError
  | validationFailed    -- 422 from pydantic
  | emailRegistered     -- 400 "Email already registered"
deriving DecidableEq, Repr

/-- `register_user` (`POST /users/`). -/
def register_user (hash : String → String) (db : DBState) (body : List (String × String)) (newId : Nat) :
    Except RegisterError (DBState × UserRec) :=
  match parseUserCreatePublic body with
  | none => .error .validationFailed
  | some uc =>
    match get_user_by_email db uc.email with
    | some _ => .error .emailRegistered
    | none => .ok (create_user hash db uc newId)

/-! ### Authorization gate (`dependencies/auth.py`) -/

/-- An incoming HTTP request as the gate sees it: its cookies and its
`Authorization` header (the header is never read by the code). -/
structure HttpRequest where
  cookies : List (String × SignedToken)
  authorization : Option SignedToken
deriving Repr

/-- `request.cookies.get(k)`. -/
def cookieGet (req : HttpRequest) (k : String) : Option SignedToken :=
  (req.cookies.find? (fun p => p.1 == k)).map (fun p => p.2)

/-- `get_current_user`: the access token is read exclusively from the
`"access_token"` cookie.  `ExpiredSignatureError` is a subclass of
`JWTError`, so an expired access token also maps to 401 "Invalid token".
`int(sub)` on a non-numeric subject raises `ValueError`, which no handler
catches; the `isDigits`/`decimalValue` pair models that conversion on its
ASCII region only (Python's `int` also converts non-ASCII decimal digit
subjects), exact for every subject the service issues — no theorem below
touches the non-ASCII region of this function. -/
def get_current_user (cfg : Settings) (db : DBState) (req : HttpRequest) (now : Int) :
    Except AuthError UserRec :=
  match cookieGet req "access_token" with
  | none => .error .notAuthenticated
  | some tok =>
    match jwtDecode tok cfg.secret_key [cfg.algorithm] now with
    | .malformed => .error .invalidTokenErr
    | .expired => .error .invalidTokenErr
    | .ok payload =>
      match payload.sub with
      | none => .error .missingSubject
      | some s =>
        if isDigits s then
          match findUser db (decimalValue s) with
          | none => .error .userNotFound
          | some u => .ok u
        else
          .error .uncaughtValueError

/-! ### Rotation chains -/

/-- `N` sequential refresh rotations: starting with current identifier
`cur`, rotate once for every identifier in `js` (each step presents the
refresh token issued for the current identifier and draws the next list
element as the fresh `uuid4`).  `none` if any rotation fails. -/
def rotateChain (cfg : Settings) (sub : String) (now : Int) :
    DBState → String → List String → Option DBState
  | db, _, [] => some db
  | db, cur, next :: rest =>
    let o := refresh_access_token cfg db (create_refresh_token cfg sub cur now) now next
    match o.result with
    | .ok _ => rotateChain cfg sub now (finalState db o) next rest
    | .error _ => none

/-- The rotation invariant: user `uid` exists, the current pointer is
`cur`, and the store independently reports `cur` active-and-unexpired. -/
def ChainOk (db : DBState) (uid : Nat) (cur : String) (now : Int) : Prop :=
  ∃ u, findUser db uid = some u ∧ u.last_refresh_jti = some cur ∧
    is_refresh_token_valid db cur now = true

/-! ### Concrete example states used to instantiate the theorems -/

/-- Example settings: 30-minute access TTL, 5-minute refresh TTL. -/
def cfgEx : Settings := ⟨"sec", "HS256", 30, 5⟩

/-- Example database: one user whose current rotation identifier is
`"j0"`, with the matching active store record. -/
def dbEx : DBState :=
  ⟨[⟨1, "a@x.com", "H", "user", some "j0"⟩], [⟨"j0", 1, true, 300⟩]⟩

/-- Example database for logout: the user's pointer is set but no active
record exists (its only record is inactive). -/
def dbNoActive : DBState :=
  ⟨[⟨1, "a@x.com", "H", "user", some "x"⟩], [⟨"t", 1, false, 100⟩]⟩

/-- A refresh token signed with the right key whose payload carries a
well-formed subject but no `jti` claim. -/
def tokNoJti : SignedToken := ⟨⟨some "1", none, none, none, 100⟩, "sec", "HS256"⟩

/-- A password verifier that accepts everything (stands in for passlib in
concrete instantiations). -/
def verEx : String → String → Bool := fun _ _ => true

/-- Python's `str.isdigit` on the subjects exercised below: non-empty
strings of ASCII digits, plus the digit-but-not-decimal character `'²'`
(U+00B2), for which `"²".isdigit()` is `True` in Python. -/
def pyIsdigitEx (s : String) : Bool :=
  !s.data.isEmpty && s.data.all (fun c => isDigitChar c || c = '²')

/-- Python's `int` on those subjects: strings of ASCII decimal digits
convert to their value; a string containing `'²'` is not a decimal digit
string, so `int` raises `ValueError` (`none`). -/
def pyToIntEx (s : String) : Option Nat :=
  if !s.data.isEmpty && s.data.all isDigitChar then some (decimalValue s) else none

/-- An identity "hash" for concrete instantiations. -/
def hashEx : String → String := fun s => s

/-! ## Lemmas: decimal strings -/

theorem charVal_digitChar {d : Nat} (h : d < 10) : charVal (digitChar d) = d := by
  interval_cases d <;> rfl

theorem isDigitChar_digitChar {d : Nat} (h : d < 10) : isDigitChar (digitChar d) = true := by
  interval_cases d <;> rfl

theorem decValList_append_digit (l : List Char) (c : Char) :
    decValList (l ++ [c]) = 10 * decValList l + charVal c := by
  simp [decValList, List.foldl_append]

theorem natDigitsAux_spec : ∀ (fuel n : Nat), n < fuel →
    decValList (natDigitsAux fuel n) = n ∧
    (natDigitsAux fuel n).all isDigitChar = true ∧
    natDigitsAux fuel n ≠ [] := by
  intro fuel
  induction fuel with
  | zero => intro n h; omega
  | succ f ih =>
    intro n h
    by_cases h10 : n < 10
    · refine ⟨?_, ?_, ?_⟩ <;> simp [natDigitsAux, h10, decValList, charVal_digitChar h10,
        isDigitChar_digitChar h10]
    · have hdiv : n / 10 < n := Nat.div_lt_self (by omega) (by omega)
      have hf : n / 10 < f := by omega
      obtain ⟨hval, hall, hne⟩ := ih (n / 10) hf
      refine ⟨?_, ?_, ?_⟩
      · rw [natDigitsAux]
        simp only [if_neg h10]
        rw [decValList_append_digit, hval, charVal_digitChar (Nat.mod_lt n (by omega))]
        omega
      · rw [natDigitsAux]
        simp only [if_neg h10, List.all_append, hall]
        simp [isDigitChar_digitChar (Nat.mod_lt n (by omega))]
      · rw [natDigitsAux]
        simp [if_neg h10]

theorem decimalValue_natToString (n : Nat) : decimalValue (natToString n) = n :=
  (natDigitsAux_spec (n + 1) n (by omega)).1

theorem isDigits_natToString (n : Nat) : isDigits (natToString n) = true := by
  obtain ⟨-, hall, hne⟩ := natDigitsAux_spec (n + 1) n (by omega)
  simp [isDigits, natToString, hall]
  exact hne

/-! ## Lemmas: state transport -/

theorem find?_congr_fun {α : Type} (p q : α → Bool) (h : ∀ a, p a = q a) :
    ∀ l : List α, l.find? p = l.find? q := by
  intro l
  induction l with
  | nil => rfl
  | cons a l ih =>
    by_cases hp : p a = true
    · rw [List.find?_cons_of_pos _ hp, List.find?_cons_of_pos _ ((h a) ▸ hp)]
    · have hq : ¬ q a = true := by rw [← h a]; exact hp
      rw [List.find?_cons_of_neg _ hp, List.find?_cons_of_neg _ hq]
      exact ih

theorem any_congr_fun {α : Type} (p q : α → Bool) (h : ∀ a, p a = q a) :
    ∀ l : List α, l.any p = l.any q := by
  intro l
  induction l with
  | nil => rfl
  | cons a l ih => simp [List.any_cons, h a, ih]

theorem find?_map_update {α : Type} (p : α → Bool) (g : α → α)
    (hg : ∀ a, p a = true → p (g a) = true) (l : List α) :
    (l.map (fun a => if p a then g a else a)).find? p =
      (l.find? p).map (fun a => if p a then g a else a) := by
  rw [List.find?_map]
  congr 1
  apply find?_congr_fun
  intro a
  by_cases h : p a = true
  · simp [Function.comp, h, hg a h]
  · have hb : p a = false := by simpa using h
    simp [Function.comp, hb]

theorem findUser_setLastRefreshJti (db : DBState) (uid : Nat) (jti : Option String) :
    findUser (setLastRefreshJti db uid jti) uid =
      (findUser db uid).map (fun u => { u with last_refresh_jti := jti }) := by
  have halign : (fun u : UserRec => if u.id = uid then { u with last_refresh_jti := jti } else u)
      = (fun u : UserRec => if u.id == uid then { u with last_refresh_jti := jti } else u) := by
    funext u; by_cases h : u.id = uid <;> simp [h]
  unfold findUser setLastRefreshJti
  simp only [halign]
  rw [find?_map_update (fun u : UserRec => u.id == uid)
    (fun u => { u with last_refresh_jti := jti }) (fun a h => h) db.users]
  cases hfind : db.users.find? (fun u => u.id == uid) with
  | none => rfl
  | some u =>
    have hu : u.id = uid := by simpa using List.find?_some hfind
    simp [hu]

theorem findUser_save (db : DBState) (jti : String) (uid' : Nat) (e : Int) (uid : Nat) :
    findUser (save_refresh_token db jti uid' e) uid = findUser db uid := rfl

theorem findUser_deactivate (db : DBState) (jti : String) (uid : Nat) :
    findUser (deactivate_refresh_token db jti) uid = findUser db uid := rfl

theorem findUser_revoke_keep (db : DBState) (uid' : Nat) (jti : Option String) (uid : Nat) :
    findUser (revoke_refresh_token db uid' jti false) uid = findUser db uid := by
  unfold findUser revoke_refresh_token
  cases jti <;> simp

theorem is_valid_iff (db : DBState) (jti : String) (now : Int) :
    is_refresh_token_valid db jti now = true ↔
      ∃ r ∈ db.tokens, r.jti = jti ∧ r.is_active = true ∧ now < r.expires_at := by
  simp [is_refresh_token_valid, List.any_eq_true, Bool.and_eq_true, and_assoc]

theorem is_valid_save_self (db : DBState) (jti : String) (uid : Nat) (e : Int) (now : Int)
    (h : now < e) : is_refresh_token_valid (save_refresh_token db jti uid e) jti now = true := by
  rw [is_valid_iff]
  refine ⟨{ jti := jti, user_id := uid, is_active := true, expires_at := e }, ?_, rfl, rfl, h⟩
  simp [save_refresh_token]

theorem is_valid_save_other (db : DBState) (jti : String) (uid : Nat) (e : Int) (now : Int)
    (j : String) (hne : j ≠ jti) :
    is_refresh_token_valid (save_refresh_token db jti uid e) j now =
      is_refresh_token_valid db j now := by
  simp only [is_refresh_token_valid, save_refresh_token, List.any_append]
  simp [hne.symm]

theorem is_valid_deactivate_other (db : DBState) (jti : String) (now : Int)
    (j : String) (hne : j ≠ jti) :
    is_refresh_token_valid (deactivate_refresh_token db jti) j now =
      is_refresh_token_valid db j now := by
  simp only [is_refresh_token_valid, deactivate_refresh_token, List.any_map]
  apply any_congr_fun
  intro t
  by_cases h : t.jti = jti
  · simp [Function.comp, h, show ¬ jti = j from fun hc => hne hc.symm]
  · simp [Function.comp, h]

theorem is_valid_revoke_single_other (db : DBState) (uid : Nat) (jti : String) (now : Int)
    (hne' : jti ≠ "") (j : String) (hne : j ≠ jti) :
    is_refresh_token_valid (revoke_refresh_token db uid (some jti) false) j now =
      is_refresh_token_valid db j now := by
  simp only [is_refresh_token_valid, revoke_refresh_token, if_neg hne', List.any_map]
  apply any_congr_fun
  intro t
  by_cases h : t.user_id = uid ∧ t.jti = jti
  · obtain ⟨h1, h2⟩ := h
    simp [Function.comp, h1, h2, show ¬ jti = j from fun hc => hne hc.symm]
  · simp [Function.comp, if_neg h]

/-! ## Lemmas: decoding engine-issued tokens -/

theorem decode_issued_refresh (cfg : Settings) (s jti : String) (now : Int) :
    jwtDecode (create_refresh_token cfg s jti now) cfg.secret_key [cfg.algorithm] now
      = .ok (create_refresh_token cfg s jti now).claims := by
  unfold jwtDecode
  rw [if_pos ⟨rfl, List.mem_singleton.mpr rfl⟩]
  have hexp : ¬ ((create_refresh_token cfg s jti now).claims.exp < now) := by
    show ¬ (now + 60 * (cfg.refresh_token_expire_minutes : Int) < now)
    omega
  rw [if_neg hexp]

theorem decode_issued_access (cfg : Settings) (s role : String) (now : Int) :
    jwtDecode (create_access_token cfg s role now) cfg.secret_key [cfg.algorithm] now
      = .ok (create_access_token cfg s role now).claims := by
  unfold jwtDecode
  rw [if_pos ⟨rfl, List.mem_singleton.mpr rfl⟩]
  have hexp : ¬ ((create_access_token cfg s role now).claims.exp < now) := by
    show ¬ (now + 60 * (cfg.access_token_expire_minutes : Int) < now)
    omega
  rw [if_neg hexp]

/-! ## Lemmas: the three branches of the rotation engine -/

theorem refresh_issued_stale (cfg : Settings) (db : DBState) (s jti : String) (now : Int)
    (newJti : String) (user : UserRec)
    (hs : isDigits s = true)
    (hu : findUser db (decimalValue s) = some user)
    (hne : user.last_refresh_jti ≠ some jti) :
    refresh_access_token cfg db (create_refresh_token cfg s jti now) now newJti =
      { result := .error .invalidOrReused,
        commits := [revoke_refresh_token db (decimalValue s) (some jti) false] } := by
  unfold refresh_access_token
  rw [decode_issued_refresh]
  simp [create_refresh_token, hs, hu, hne]

theorem refresh_issued_invalid_record (cfg : Settings) (db : DBState) (s jti : String)
    (now : Int) (newJti : String) (user : UserRec)
    (hs : isDigits s = true)
    (hu : findUser db (decimalValue s) = some user)
    (heq : user.last_refresh_jti = some jti)
    (hinv : is_refresh_token_valid db jti now = false) :
    refresh_access_token cfg db (create_refresh_token cfg s jti now) now newJti =
      { result := .error .invalidOrReused,
        commits := [revoke_refresh_token db (decimalValue s) (some jti) false] } := by
  unfold refresh_access_token
  rw [decode_issued_refresh]
  simp [create_refresh_token, hs, hu, heq, hinv]

theorem refresh_issued_success (cfg : Settings) (db : DBState) (s jti : String)
    (now : Int) (newJti : String) (user : UserRec)
    (hs : isDigits s = true)
    (hu : findUser db (decimalValue s) = some user)
    (heq : user.last_refresh_jti = some jti)
    (hval : is_refresh_token_valid db jti now = true) :
    refresh_access_token cfg db (create_refresh_token cfg s jti now) now newJti =
      { result := .ok
          { access_token := create_access_token cfg (natToString (decimalValue s)) user.role now,
            refresh_token := create_refresh_token cfg (natToString (decimalValue s)) newJti now,
            token_type := "bearer" },
        commits := [deactivate_refresh_token db jti,
          save_refresh_token
            (setLastRefreshJti (deactivate_refresh_token db jti) (decimalValue s) (some newJti))
            newJti (decimalValue s) (now + 60 * (cfg.refresh_token_expire_minutes : Int))] } := by
  unfold refresh_access_token
  rw [decode_issued_refresh]
  simp [create_refresh_token, create_access_token, hs, hu, heq, hval]

theorem refresh_rejects_stale (cfg : Settings) (db : DBState) (uid : Nat) (j : String)
    (now : Int) (newJti : String) (u : UserRec)
    (hu : findUser db uid = some u) (hne : u.last_refresh_jti ≠ some j) :
    (refresh_access_token cfg db (create_refresh_token cfg (natToString uid) j now) now newJti).result
      = .error .invalidOrReused := by
  have hs := isDigits_natToString uid
  have hu' : findUser db (decimalValue (natToString uid)) = some u := by
    rw [decimalValue_natToString]; exact hu
  rw [refresh_issued_stale cfg db (natToString uid) j now newJti u hs hu' hne]

/-! ## Lemmas: chains of rotations -/

theorem ChainOk_step (cfg : Settings) (db : DBState) (uid : Nat) (cur next : String) (now : Int)
    (httl : 0 < cfg.refresh_token_expire_minutes)
    (h : ChainOk db uid cur now) :
    (∃ pair, (refresh_access_token cfg db
        (create_refresh_token cfg (natToString uid) cur now) now next).result = .ok pair) ∧
    ChainOk (finalState db (refresh_access_token cfg db
        (create_refresh_token cfg (natToString uid) cur now) now next)) uid next now := by
  obtain ⟨u, hu, hcur, hval⟩ := h
  have hs := isDigits_natToString uid
  have hdv : decimalValue (natToString uid) = uid := decimalValue_natToString uid
  have hu' : findUser db (decimalValue (natToString uid)) = some u := by rw [hdv]; exact hu
  have hrun := refresh_issued_success cfg db (natToString uid) cur now next u hs hu' hcur hval
  rw [hrun]
  refine ⟨⟨_, rfl⟩, ?_⟩
  show ChainOk (save_refresh_token
    (setLastRefreshJti (deactivate_refresh_token db cur) (decimalValue (natToString uid)) (some next))
    next (decimalValue (natToString uid)) (now + 60 * (cfg.refresh_token_expire_minutes : Int)))
    uid next now
  rw [hdv]
  refine ⟨{ u with last_refresh_jti := some next }, ?_, rfl, ?_⟩
  · rw [findUser_save, findUser_setLastRefreshJti, findUser_deactivate, hu]
    rfl
  · exact is_valid_save_self _ next uid _ now (by omega)

theorem rotateChain_cons (cfg : Settings) (sub : String) (now : Int) (db : DBState)
    (cur next : String) (rest : List String) :
    rotateChain cfg sub now db cur (next :: rest) =
      (match (refresh_access_token cfg db (create_refresh_token cfg sub cur now) now next).result with
       | .ok _ => rotateChain cfg sub now
           (finalState db (refresh_access_token cfg db (create_refresh_token cfg sub cur now) now next))
           next rest
       | .error _ => none) := rfl

theorem rotateChain_ok (cfg : Settings) (uid : Nat) (now : Int)
    (httl : 0 < cfg.refresh_token_expire_minutes) :
    ∀ (js : List String) (db : DBState) (cur : String), ChainOk db uid cur now →
      ∃ dbN, rotateChain cfg (natToString uid) now db cur js = some dbN ∧
        ChainOk dbN uid (js.getLastD cur) now := by
  intro js
  induction js with
  | nil => intro db cur h; exact ⟨db, rfl, h⟩
  | cons next rest ih =>
    intro db cur h
    obtain ⟨⟨pair, hok⟩, hnext⟩ := ChainOk_step cfg db uid cur next now httl h
    obtain ⟨dbN, hchain, hok2⟩ := ih _ next hnext
    refine ⟨dbN, ?_, ?_⟩
    · rw [rotateChain_cons, hok]
      exact hchain
    · rw [List.getLastD_cons]
      exact hok2

theorem getLast_cons_eq_getLastD {α : Type} (a : α) (l : List α) :
    (a :: l).getLast (List.cons_ne_nil a l) = l.getLastD a := by
  induction l generalizing a with
  | nil => rfl
  | cons b l ih =>
    rw [List.getLast_cons (List.cons_ne_nil b l)]
    rw [ih b, List.getLastD_cons]

theorem nodup_dropLast_ne_getLastD (j0 : String) (js : List String)
    (hnd : (j0 :: js).Nodup) : ∀ j ∈ (j0 :: js).dropLast, j ≠ js.getLastD j0 := by
  intro j hj hc
  have hne : (j0 :: js) ≠ [] := List.cons_ne_nil _ _
  have hsplit := List.dropLast_append_getLast hne
  rw [← hsplit, List.nodup_append] at hnd
  obtain ⟨-, -, hdisj⟩ := hnd
  apply hdisj hj
  rw [getLast_cons_eq_getLastD] at hsplit ⊢
  rw [← hc]
  exact List.mem_singleton_self j

theorem is_valid_deactivate_self (db : DBState) (j : String) (now : Int) :
    is_refresh_token_valid (deactivate_refresh_token db j) j now = false := by
  simp only [is_refresh_token_valid, deactivate_refresh_token, List.any_map]
  rw [List.any_eq_false]
  intro t _
  by_cases h : t.jti = j <;> simp [Function.comp, h]

theorem findUser_of_mem (db : DBState) (u : UserRec) (h : u ∈ db.users) :
    ∃ w, findUser db u.id = some w := by
  unfold findUser
  have hex : ∃ x ∈ db.users, (fun v : UserRec => v.id == u.id) x = true := ⟨u, h, by simp⟩
  obtain ⟨w, hw⟩ := Option.isSome_iff_exists.mp (List.find?_isSome.mpr hex)
  exact ⟨w, hw⟩

/-! ## Claim C1 -/

/-- C1: one-time-use chain property of rotation identifiers.  For every
user and every sequence of `N` sequential successful rotations starting
from a login state (pointer `j0`, active unexpired record), a refresh
presented with the latest identifier succeeds, and a refresh presented
with any earlier identifier of the chain — including an identifier that
has already been rotated — fails `InvalidOrReused`. -/
theorem c1_rotation_chain (cfg : Settings) (db0 : DBState) (uid : Nat) (j0 : String)
    (js : List String) (next : String) (now : Int)
    (httl : 0 < cfg.refresh_token_expire_minutes)
    (h0 : ChainOk db0 uid j0 now)
    (hnd : (j0 :: js).Nodup) :
    ∃ dbN, rotateChain cfg (natToString uid) now db0 j0 js = some dbN ∧
      (∃ pair, (refresh_access_token cfg dbN
          (create_refresh_token cfg (natToString uid) (js.getLastD j0) now) now next).result
            = .ok pair) ∧
      ∀ j ∈ (j0 :: js).dropLast,
        (refresh_access_token cfg dbN
          (create_refresh_token cfg (natToString uid) j now) now next).result
            = .error .invalidOrReused := by
  obtain ⟨dbN, hchain, hokN⟩ := rotateChain_ok cfg uid now httl js db0 j0 h0
  obtain ⟨u, hu, hcur, hval⟩ := hokN
  refine ⟨dbN, hchain, ?_, ?_⟩
  · obtain ⟨⟨pair, hok⟩, -⟩ :=
      ChainOk_step cfg dbN uid (js.getLastD j0) next now httl ⟨u, hu, hcur, hval⟩
    exact ⟨pair, hok⟩
  · intro j hj
    have hlast : j ≠ js.getLastD j0 := nodup_dropLast_ne_getLastD j0 js hnd j hj
    apply refresh_rejects_stale cfg dbN uid j now next u hu
    rw [hcur]
    intro hc
    injection hc with hc'
    exact hlast hc'.symm

/-- C1 witness: two rotations `j0 → j1 → j2` from a concrete login state;
the latest identifier `j2` refreshes successfully and both `j0` and `j1`
are rejected `InvalidOrReused`. -/
theorem c1_rotation_chain_witness :
    ∃ dbN, rotateChain cfgEx (natToString 1) 0 dbEx "j0" ["j1", "j2"] = some dbN ∧
      (∃ pair, (refresh_access_token cfgEx dbN
          (create_refresh_token cfgEx (natToString 1) ((["j1", "j2"] : List String).getLastD "j0") 0) 0 "j3").result
            = .ok pair) ∧
      ∀ j ∈ (("j0" :: ["j1", "j2"] : List String)).dropLast,
        (refresh_access_token cfgEx dbN
          (create_refresh_token cfgEx (natToString 1) j 0) 0 "j3").result
            = .error .invalidOrReused :=
  c1_rotation_chain cfgEx dbEx 1 "j0" ["j1", "j2"] "j3" 0 (by decide)
    ⟨⟨1, "a@x.com", "H", "user", some "j0"⟩, by decide, rfl, by decide⟩ (by decide)

/-! ## Claim C2 -/

/-- C2 counterexample: the claim as stated is false for a refresh request
whose decoded rotation identifier is the empty string.  With user 1's
pointer at `"j0"` and its record active, presenting a correctly signed
refresh token with `jti = ""` (which differs from the pointer) makes
`revoke_refresh_token`'s Python truthiness test `if jti:` take the
revoke-all branch: the record of the *current* identifier `"j0"` is
deactivated, and a subsequent refresh with the true current token fails —
contradicting "deactivates only the Store record of the presented
identifier … so a subsequent refresh with the true current token still
succeeds". -/
theorem c2_counterexample :
    (refresh_access_token cfgEx dbEx (create_refresh_token cfgEx "1" "" 0) 0 "n").result
      = .error .invalidOrReused ∧
    is_refresh_token_valid
      (finalState dbEx (refresh_access_token cfgEx dbEx (create_refresh_token cfgEx "1" "" 0) 0 "n"))
      "j0" 0 = false ∧
    (refresh_access_token cfgEx
      (finalState dbEx (refresh_access_token cfgEx dbEx (create_refresh_token cfgEx "1" "" 0) 0 "n"))
      (create_refresh_token cfgEx "1" "j0" 0) 0 "n2").result = .error .invalidOrReused := by
  refine ⟨rfl, rfl, rfl⟩

/-- C2 (amended): reuse-detection frame property, for requests whose
decoded rotation identifier is non-empty.  If the presented identifier
differs from the user's pointer, the engine fails `InvalidOrReused`,
leaves every user row unchanged (in particular `last_refresh_jti`),
deactivates at most the store record of the presented identifier (all
records with another identifier are untouched), and a subsequent refresh
with the true current token still succeeds.  (If the decoded identifier is
the empty string, the code instead deactivates all of the user's active
records — see the counterexample.) -/
theorem c2_reuse_frame (cfg : Settings) (db : DBState) (s jti newJti : String) (now : Int)
    (user : UserRec) (o : Outcome)
    (hs : isDigits s = true)
    (hjne : jti ≠ "")
    (hu : findUser db (decimalValue s) = some user)
    (hne : user.last_refresh_jti ≠ some jti)
    (ho : o = refresh_access_token cfg db (create_refresh_token cfg s jti now) now newJti) :
    o.result = .error .invalidOrReused ∧
    (finalState db o).users = db.users ∧
    (∀ r ∈ db.tokens, r.jti ≠ jti → r ∈ (finalState db o).tokens) ∧
    (∀ r ∈ db.tokens, r.jti = jti → r.user_id = decimalValue s →
        { r with is_active := false } ∈ (finalState db o).tokens) ∧
    (∀ cur, user.last_refresh_jti = some cur →
        is_refresh_token_valid db cur now = true →
        ∀ newJti2 : String,
          ∃ pair, (refresh_access_token cfg (finalState db o)
            (create_refresh_token cfg s cur now) now newJti2).result = .ok pair) := by
  subst ho
  rw [refresh_issued_stale cfg db s jti now newJti user hs hu hne]
  have hfin : finalState db
      { result := .error .invalidOrReused,
        commits := [revoke_refresh_token db (decimalValue s) (some jti) false] }
      = revoke_refresh_token db (decimalValue s) (some jti) false := rfl
  rw [hfin]
  refine ⟨rfl, ?_, ?_, ?_, ?_⟩
  · simp [revoke_refresh_token]
  · intro r hr hrne
    simp only [revoke_refresh_token, if_neg hjne]
    have : (if r.user_id = decimalValue s ∧ r.jti = jti then { r with is_active := false } else r) = r := by
      rw [if_neg]
      intro hc
      exact hrne hc.2
    exact this ▸ List.mem_map_of_mem _ hr
  · intro r hr hj huid
    simp only [revoke_refresh_token, if_neg hjne]
    have : (if r.user_id = decimalValue s ∧ r.jti = jti then { r with is_active := false } else r)
        = { r with is_active := false } := by
      rw [if_pos ⟨huid, hj⟩]
    exact this ▸ List.mem_map_of_mem _ hr
  · intro cur hcur hvalid newJti2
    have hcne : cur ≠ jti := by
      intro hc
      exact hne (hc ▸ hcur)
    have hu2 : findUser (revoke_refresh_token db (decimalValue s) (some jti) false) (decimalValue s)
        = some user := by
      rw [findUser_revoke_keep]
      exact hu
    have hval2 : is_refresh_token_valid (revoke_refresh_token db (decimalValue s) (some jti) false) cur now
        = true := by
      rw [is_valid_revoke_single_other db (decimalValue s) jti now hjne cur hcne]
      exact hvalid
    rw [refresh_issued_success cfg _ s cur now newJti2 user hs hu2 hcur hval2]
    exact ⟨_, rfl⟩

/-- C2 witness: at a concrete state (user 1, pointer `"j0"` active, plus a
stale record `"old"`), presenting the superseded identifier `"old"` fails
`InvalidOrReused`, deactivates only `"old"`, keeps the pointer, and the
true current token `"j0"` still refreshes successfully. -/
theorem c2_reuse_frame_witness :
    (refresh_access_token cfgEx
        ⟨[⟨1, "a@x.com", "H", "user", some "j0"⟩],
         [⟨"j0", 1, true, 300⟩, ⟨"old", 1, true, 300⟩]⟩
        (create_refresh_token cfgEx "1" "old" 0) 0 "n").result = .error .invalidOrReused ∧
    (finalState ⟨[⟨1, "a@x.com", "H", "user", some "j0"⟩], [⟨"j0", 1, true, 300⟩, ⟨"old", 1, true, 300⟩]⟩
        (refresh_access_token cfgEx
          ⟨[⟨1, "a@x.com", "H", "user", some "j0"⟩], [⟨"j0", 1, true, 300⟩, ⟨"old", 1, true, 300⟩]⟩
          (create_refresh_token cfgEx "1" "old" 0) 0 "n")).users
      = [⟨1, "a@x.com", "H", "user", some "j0"⟩] ∧
    ∃ pair, (refresh_access_token cfgEx
        (finalState ⟨[⟨1, "a@x.com", "H", "user", some "j0"⟩], [⟨"j0", 1, true, 300⟩, ⟨"old", 1, true, 300⟩]⟩
          (refresh_access_token cfgEx
            ⟨[⟨1, "a@x.com", "H", "user", some "j0"⟩], [⟨"j0", 1, true, 300⟩, ⟨"old", 1, true, 300⟩]⟩
            (create_refresh_token cfgEx "1" "old" 0) 0 "n"))
        (create_refresh_token cfgEx "1" "j0" 0) 0 "n2").result = .ok pair := by
  have h := c2_reuse_frame cfgEx
    ⟨[⟨1, "a@x.com", "H", "user", some "j0"⟩], [⟨"j0", 1, true, 300⟩, ⟨"old", 1, true, 300⟩]⟩
    "1" "old" "n" 0 ⟨1, "a@x.com", "H", "user", some "j0"⟩ _
    (by decide) (by decide) (by decide) (by decide) rfl
  exact ⟨h.1, h.2.1, h.2.2.2.2 "j0" rfl (by decide) "n2"⟩

theorem login_success_eq (cfg : Settings) (verify : String → String → Bool) (db : DBState)
    (username password : String) (now : Int) (jti : String) (user : UserRec)
    (hu : get_user_by_email db username = some user)
    (hv : verify password user.hashed_password = true) :
    login_user cfg verify db username password now jti =
      { result := .ok
          { access_token := create_access_token cfg (natToString user.id) user.role now,
            refresh_token := create_refresh_token cfg (natToString user.id) jti now,
            token_type := "bearer" },
        commits := [setLastRefreshJti db user.id (some jti),
          save_refresh_token (setLastRefreshJti db user.id (some jti)) jti user.id
            (now + 60 * (cfg.refresh_token_expire_minutes : Int))] } := by
  unfold login_user
  rw [hu]
  simp [hv]

/-! ## Claim C3 -/

theorem is_valid_eq_false_of_absent (db : DBState) (j : String) (now : Int)
    (h : ∀ r ∈ db.tokens, r.jti ≠ j) : is_refresh_token_valid db j now = false := by
  rw [is_refresh_token_valid, List.any_eq_false]
  intro t ht
  simp [h t ht]

/-- C3 counterexample: the claim as stated is false.  A successful login
performs TWO separate commits (`await db.commit()` after the pointer
update, then again after the record insert): its first committed state has
`User.last_refresh_jti` already set to the new identifier while no store
record for that identifier exists — exactly the committed intermediate
state the claim says cannot exist. -/
theorem c3_counterexample :
    (∃ pair, (login_user cfgEx verEx dbEx "a@x.com" "pw" 0 "jn").result = .ok pair) ∧
    (login_user cfgEx verEx dbEx "a@x.com" "pw" 0 "jn").commits.length = 2 ∧
    (login_user cfgEx verEx dbEx "a@x.com" "pw" 0 "jn").commits.head? =
      some ⟨[⟨1, "a@x.com", "H", "user", some "jn"⟩], [⟨"j0", 1, true, 300⟩]⟩ ∧
    is_refresh_token_valid ⟨[⟨1, "a@x.com", "H", "user", some "jn"⟩], [⟨"j0", 1, true, 300⟩]⟩ "jn" 0
      = false :=
  ⟨⟨_, rfl⟩, rfl, rfl, rfl⟩

/-- C3 (amended): rotation state is persisted in TWO successive
transactions, not one.  A successful login commits first the pointer
update (a committed intermediate state in which the pointer names an
identifier with no store record) and then the record insert; a successful
refresh commits first the old record's deactivation (a committed
intermediate state in which the pointer still names a now-invalid record)
and then, together, the pointer update and the new record insert.  The
final committed state of each flow is consistent again. -/
theorem c3_two_transactions (cfg : Settings) (verify : String → String → Bool)
    (db db2 : DBState) (username password : String) (now : Int) (jti : String) (user : UserRec)
    (uid2 : Nat) (curJti newJti : String) (user2 : UserRec) :
    (get_user_by_email db username = some user →
     verify password user.hashed_password = true →
     (∀ r ∈ db.tokens, r.jti ≠ jti) →
     (login_user cfg verify db username password now jti).commits.length = 2 ∧
     (∃ dbMid, (login_user cfg verify db username password now jti).commits.head? = some dbMid ∧
        (∃ u', findUser dbMid user.id = some u' ∧ u'.last_refresh_jti = some jti) ∧
        is_refresh_token_valid dbMid jti now = false) ∧
     (0 < cfg.refresh_token_expire_minutes →
        is_refresh_token_valid
          (finalState db (login_user cfg verify db username password now jti)) jti now = true)) ∧
    (findUser db2 uid2 = some user2 →
     user2.last_refresh_jti = some curJti →
     is_refresh_token_valid db2 curJti now = true →
     (refresh_access_token cfg db2
        (create_refresh_token cfg (natToString uid2) curJti now) now newJti).commits.length = 2 ∧
     (∃ dbMid, (refresh_access_token cfg db2
          (create_refresh_token cfg (natToString uid2) curJti now) now newJti).commits.head?
            = some dbMid ∧
        (∃ u', findUser dbMid uid2 = some u' ∧ u'.last_refresh_jti = some curJti) ∧
        is_refresh_token_valid dbMid curJti now = false) ∧
     (0 < cfg.refresh_token_expire_minutes →
        ∃ u', findUser (finalState db2 (refresh_access_token cfg db2
            (create_refresh_token cfg (natToString uid2) curJti now) now newJti)) uid2 = some u' ∧
          u'.last_refresh_jti = some newJti ∧
          is_refresh_token_valid (finalState db2 (refresh_access_token cfg db2
            (create_refresh_token cfg (natToString uid2) curJti now) now newJti)) newJti now
              = true)) := by
  constructor
  · intro hu hv hfresh
    rw [login_success_eq cfg verify db username password now jti user hu hv]
    refine ⟨rfl, ⟨setLastRefreshJti db user.id (some jti), rfl, ?_, ?_⟩, ?_⟩
    · obtain ⟨w, hw⟩ := findUser_of_mem db user (List.mem_of_find?_eq_some hu)
      rw [findUser_setLastRefreshJti, hw]
      exact ⟨_, rfl, rfl⟩
    · apply is_valid_eq_false_of_absent
      intro r hr
      exact hfresh r hr
    · intro httl
      show is_refresh_token_valid (save_refresh_token _ jti user.id _) jti now = true
      exact is_valid_save_self _ jti user.id _ now (by omega)
  · intro hu2 hcur hval
    have hs := isDigits_natToString uid2
    have hdv : decimalValue (natToString uid2) = uid2 := decimalValue_natToString uid2
    have hu2' : findUser db2 (decimalValue (natToString uid2)) = some user2 := by
      rw [hdv]; exact hu2
    rw [refresh_issued_success cfg db2 (natToString uid2) curJti now newJti user2 hs hu2' hcur hval]
    refine ⟨rfl, ⟨deactivate_refresh_token db2 curJti, rfl, ?_, ?_⟩, ?_⟩
    · rw [findUser_deactivate, hu2]
      exact ⟨user2, rfl, hcur⟩
    · exact is_valid_deactivate_self db2 curJti now
    · intro httl
      refine ⟨{ user2 with last_refresh_jti := some newJti }, ?_, rfl, ?_⟩
      · show findUser (save_refresh_token (setLastRefreshJti _ _ _) _ _ _) uid2 = _
        rw [hdv, findUser_save, findUser_setLastRefreshJti, findUser_deactivate, hu2]
        rfl
      · show is_refresh_token_valid (save_refresh_token _ newJti _ _) newJti now = true
        exact is_valid_save_self _ newJti _ _ now (by omega)

/-- C3 witness: the amended two-transaction structure, instantiated for a
concrete login (fresh identifier `"jn"`) and a concrete refresh
(`"j0" → "n"`) on the example state. -/
theorem c3_two_transactions_witness :
    ((login_user cfgEx verEx dbEx "a@x.com" "pw" 0 "jn").commits.length = 2 ∧
     (∃ dbMid, (login_user cfgEx verEx dbEx "a@x.com" "pw" 0 "jn").commits.head? = some dbMid ∧
        (∃ u', findUser dbMid 1 = some u' ∧ u'.last_refresh_jti = some "jn") ∧
        is_refresh_token_valid dbMid "jn" 0 = false) ∧
     (0 < cfgEx.refresh_token_expire_minutes →
        is_refresh_token_valid (finalState dbEx (login_user cfgEx verEx dbEx "a@x.com" "pw" 0 "jn")) "jn" 0
          = true)) ∧
    ((refresh_access_token cfgEx dbEx
        (create_refresh_token cfgEx (natToString 1) "j0" 0) 0 "n").commits.length = 2 ∧
     (∃ dbMid, (refresh_access_token cfgEx dbEx
          (create_refresh_token cfgEx (natToString 1) "j0" 0) 0 "n").commits.head? = some dbMid ∧
        (∃ u', findUser dbMid 1 = some u' ∧ u'.last_refresh_jti = some "j0") ∧
        is_refresh_token_valid dbMid "j0" 0 = false) ∧
     (0 < cfgEx.refresh_token_expire_minutes →
        ∃ u', findUser (finalState dbEx (refresh_access_token cfgEx dbEx
            (create_refresh_token cfgEx (natToString 1) "j0" 0) 0 "n")) 1 = some u' ∧
          u'.last_refresh_jti = some "n" ∧
          is_refresh_token_valid (finalState dbEx (refresh_access_token cfgEx dbEx
            (create_refresh_token cfgEx (natToString 1) "j0" 0) 0 "n")) "n" 0 = true)) := by
  have h := c3_two_transactions cfgEx verEx dbEx dbEx "a@x.com" "pw" 0 "jn"
    ⟨1, "a@x.com", "H", "user", some "j0"⟩ 1 "j0" "n" ⟨1, "a@x.com", "H", "user", some "j0"⟩
  exact ⟨h.1 (by decide) rfl (by decide), h.2 (by decide) rfl (by decide)⟩

/-! ## Claim C4 -/

/-- C4: independent Store validity check.  For a refresh whose rotation
identifier equals the user's pointer, the rotation succeeds exactly when
the store reports the identifier valid, fails `InvalidOrReused` when it
does not, and the store's validity predicate holds exactly when a record
with that identifier exists, is active, and expires strictly in the
future. -/
theorem c4_store_validity (cfg : Settings) (db : DBState) (s jti newJti : String) (now : Int)
    (user : UserRec)
    (hs : isDigits s = true)
    (hu : findUser db (decimalValue s) = some user)
    (heq : user.last_refresh_jti = some jti) :
    ((∃ pair, (refresh_access_token cfg db
        (create_refresh_token cfg s jti now) now newJti).result = .ok pair)
      ↔ is_refresh_token_valid db jti now = true) ∧
    (is_refresh_token_valid db jti now = false →
      (refresh_access_token cfg db
        (create_refresh_token cfg s jti now) now newJti).result = .error .invalidOrReused) ∧
    (is_refresh_token_valid db jti now = true ↔
      ∃ r ∈ db.tokens, r.jti = jti ∧ r.is_active = true ∧ now < r.expires_at) := by
  refine ⟨?_, ?_, is_valid_iff db jti now⟩
  · cases hval : is_refresh_token_valid db jti now with
    | true =>
      rw [refresh_issued_success cfg db s jti now newJti user hs hu heq hval]
      simp
    | false =>
      rw [refresh_issued_invalid_record cfg db s jti now newJti user hs hu heq hval]
      simp
  · intro hval
    rw [refresh_issued_invalid_record cfg db s jti now newJti user hs hu heq hval]

/-- C4 witness: at a state whose only record for `"j0"` is inactive, a
refresh presenting `"j0"` (which equals the pointer) fails
`InvalidOrReused`, and the validity predicate is false. -/
theorem c4_store_validity_witness :
    ((∃ pair, (refresh_access_token cfgEx ⟨[⟨1, "a@x.com", "H", "user", some "j0"⟩], [⟨"j0", 1, false, 300⟩]⟩
        (create_refresh_token cfgEx "1" "j0" 0) 0 "n").result = .ok pair)
      ↔ is_refresh_token_valid ⟨[⟨1, "a@x.com", "H", "user", some "j0"⟩], [⟨"j0", 1, false, 300⟩]⟩ "j0" 0 = true) ∧
    (is_refresh_token_valid ⟨[⟨1, "a@x.com", "H", "user", some "j0"⟩], [⟨"j0", 1, false, 300⟩]⟩ "j0" 0 = false →
      (refresh_access_token cfgEx ⟨[⟨1, "a@x.com", "H", "user", some "j0"⟩], [⟨"j0", 1, false, 300⟩]⟩
        (create_refresh_token cfgEx "1" "j0" 0) 0 "n").result = .error .invalidOrReused) ∧
    (is_refresh_token_valid ⟨[⟨1, "a@x.com", "H", "user", some "j0"⟩], [⟨"j0", 1, false, 300⟩]⟩ "j0" 0 = true ↔
      ∃ r ∈ (⟨[⟨1, "a@x.com", "H", "user", some "j0"⟩], [⟨"j0", 1, false, 300⟩]⟩ : DBState).tokens,
        r.jti = "j0" ∧ r.is_active = true ∧ (0 : Int) < r.expires_at) :=
  c4_store_validity cfgEx ⟨[⟨1, "a@x.com", "H", "user", some "j0"⟩], [⟨"j0", 1, false, 300⟩]⟩
    "1" "j0" "n" 0 ⟨1, "a@x.com", "H", "user", some "j0"⟩ (by decide) (by decide) rfl

/-! ## Claim C5 -/

/-- C5: login postcondition.  For every login with valid credentials, the
returned access token decodes to a subject claim equal to (the decimal
rendering of) the authenticated user's id, and the returned refresh token
decodes to a rotation identifier equal to the value stored as the user's
`last_refresh_jti` in the final committed state. -/
theorem c5_login_postcondition (cfg : Settings) (verify : String → String → Bool) (db : DBState)
    (username password : String) (now : Int) (jti : String) (user : UserRec)
    (hu : get_user_by_email db username = some user)
    (hv : verify password user.hashed_password = true) :
    ∃ pair, (login_user cfg verify db username password now jti).result = .ok pair ∧
      (∃ ac, jwtDecode pair.access_token cfg.secret_key [cfg.algorithm] now = .ok ac ∧
         ac.sub = some (natToString user.id) ∧ decimalValue (natToString user.id) = user.id) ∧
      (∃ rc, jwtDecode pair.refresh_token cfg.secret_key [cfg.algorithm] now = .ok rc ∧
         rc.jti = some jti) ∧
      ∃ u', findUser (finalState db (login_user cfg verify db username password now jti)) user.id
          = some u' ∧ u'.last_refresh_jti = some jti := by
  rw [login_success_eq cfg verify db username password now jti user hu hv]
  refine ⟨_, rfl, ?_, ?_, ?_⟩
  · exact ⟨_, decode_issued_access cfg (natToString user.id) user.role now, rfl,
      decimalValue_natToString user.id⟩
  · exact ⟨_, decode_issued_refresh cfg (natToString user.id) jti now, rfl⟩
  · obtain ⟨w, hw⟩ := findUser_of_mem db user (List.mem_of_find?_eq_some hu)
    show ∃ u', findUser (save_refresh_token (setLastRefreshJti db user.id (some jti)) _ _ _) user.id
        = some u' ∧ u'.last_refresh_jti = some jti
    rw [findUser_save, findUser_setLastRefreshJti, hw]
    exact ⟨_, rfl, rfl⟩

/-- C5 witness: the login postcondition at the concrete example state. -/
theorem c5_login_postcondition_witness :
    ∃ pair, (login_user cfgEx verEx dbEx "a@x.com" "pw" 0 "jn").result = .ok pair ∧
      (∃ ac, jwtDecode pair.access_token cfgEx.secret_key [cfgEx.algorithm] 0 = .ok ac ∧
         ac.sub = some (natToString 1) ∧ decimalValue (natToString 1) = 1) ∧
      (∃ rc, jwtDecode pair.refresh_token cfgEx.secret_key [cfgEx.algorithm] 0 = .ok rc ∧
         rc.jti = some "jn") ∧
      ∃ u', findUser (finalState dbEx (login_user cfgEx verEx dbEx "a@x.com" "pw" 0 "jn")) 1
          = some u' ∧ u'.last_refresh_jti = some "jn" :=
  c5_login_postcondition cfgEx verEx dbEx "a@x.com" "pw" 0 "jn"
    ⟨1, "a@x.com", "H", "user", some "j0"⟩ (by decide) rfl

/-! ## Claim C6 -/

/-- C6: token decode error taxonomy.  Decoding is total (always one of
`ok`/`expired`/`malformed`, never a crash); any signature failure — wrong
key, or an algorithm outside the one-element allow-list — yields
`malformed` and the refresh endpoint answers 401 "Invalid refresh token";
for a correctly signed token, decoding yields `expired` exactly when the
expiry claim is in the past, and the refresh endpoint then answers 401
"Refresh token expired". -/
theorem c6_decode_taxonomy (cfg : Settings) (db : DBState) (t : SignedToken) (now : Int)
    (newJti : String) :
    (jwtDecode t cfg.secret_key [cfg.algorithm] now = .ok t.claims ∨
     jwtDecode t cfg.secret_key [cfg.algorithm] now = .expired ∨
     jwtDecode t cfg.secret_key [cfg.algorithm] now = .malformed) ∧
    (¬ (t.key = cfg.secret_key ∧ t.alg = cfg.algorithm) →
       jwtDecode t cfg.secret_key [cfg.algorithm] now = .malformed ∧
       (refresh_access_token cfg db t now newJti).result = .error .invalidRefresh ∧
       AuthError.invalidRefresh.detail = "Invalid refresh token") ∧
    (t.key = cfg.secret_key → t.alg = cfg.algorithm →
       ((jwtDecode t cfg.secret_key [cfg.algorithm] now = .expired ↔ t.claims.exp < now) ∧
        (t.claims.exp < now →
          (refresh_access_token cfg db t now newJti).result = .error .expiredRefresh ∧
          AuthError.expiredRefresh.detail = "Refresh token expired"))) := by
  refine ⟨?_, ?_, ?_⟩
  · unfold jwtDecode
    by_cases h1 : t.key = cfg.secret_key ∧ t.alg ∈ [cfg.algorithm]
    · rw [if_pos h1]
      by_cases h2 : t.claims.exp < now
      · rw [if_pos h2]; right; left; rfl
      · rw [if_neg h2]; left; rfl
    · rw [if_neg h1]; right; right; rfl
  · intro h
    have hcond : ¬ (t.key = cfg.secret_key ∧ t.alg ∈ [cfg.algorithm]) := by
      intro hc
      exact h ⟨hc.1, List.mem_singleton.mp hc.2⟩
    have hdec : jwtDecode t cfg.secret_key [cfg.algorithm] now = .malformed := by
      unfold jwtDecode; rw [if_neg hcond]
    refine ⟨hdec, ?_, rfl⟩
    unfold refresh_access_token
    rw [hdec]
  · intro hkey halg
    have hcond : t.key = cfg.secret_key ∧ t.alg ∈ [cfg.algorithm] :=
      ⟨hkey, List.mem_singleton.mpr halg⟩
    constructor
    · unfold jwtDecode
      rw [if_pos hcond]
      by_cases h2 : t.claims.exp < now
      · rw [if_pos h2]; simp [h2]
      · rw [if_neg h2]; simp [h2]
    · intro h2
      have hdec : jwtDecode t cfg.secret_key [cfg.algorithm] now = .expired := by
        unfold jwtDecode; rw [if_pos hcond, if_pos h2]
      refine ⟨?_, rfl⟩
      unfold refresh_access_token
      rw [hdec]

/-- C6 witness: a token signed with a different secret is rejected
"Invalid refresh token"; a correctly signed token with expiry in the past
is rejected "Refresh token expired". -/
theorem c6_decode_taxonomy_witness :
    (refresh_access_token cfgEx dbEx ⟨⟨none, none, none, none, 100⟩, "bad", "HS256"⟩ 0 "n").result
        = .error .invalidRefresh ∧
    (refresh_access_token cfgEx dbEx ⟨⟨some "1", some "j0", none, none, -5⟩, "sec", "HS256"⟩ 0 "n").result
        = .error .expiredRefresh :=
  ⟨((c6_decode_taxonomy cfgEx dbEx ⟨⟨none, none, none, none, 100⟩, "bad", "HS256"⟩ 0 "n").2.1
      (by decide)).2.1,
   (((c6_decode_taxonomy cfgEx dbEx ⟨⟨some "1", some "j0", none, none, -5⟩, "sec", "HS256"⟩ 0 "n").2.2
      rfl rfl).2 (by decide)).1⟩

/-! ## Claim C7 -/

/-- C7 counterexample: the claim's "when no active record exists it is a
silent no-op" is false.  At a state with no active record but a non-empty
pointer, logout still returns 204 yet changes persisted state (it clears
`last_refresh_jti`), so it is not a no-op. -/
theorem c7_counterexample :
    dbNoActive.tokens.all (fun r => !(r.user_id == 1 && r.is_active)) = true ∧
    (logout_user dbNoActive 1).1 = 204 ∧
    (logout_user dbNoActive 1).2 ≠ dbNoActive := by
  decide

theorem revoke_all_idem (db : DBState) (uid : Nat) :
    revoke_refresh_token (revoke_refresh_token db uid none true) uid none true
      = revoke_refresh_token db uid none true := by
  simp only [revoke_refresh_token, eq_self_iff_true, if_true, DBState.mk.injEq]
  constructor
  · rw [List.map_map]
    apply List.map_congr_left
    intro u _
    by_cases h : u.id = uid <;> simp [Function.comp, h]
  · rw [List.map_map]
    apply List.map_congr_left
    intro t _
    by_cases h : t.user_id = uid ∧ t.is_active = true
    · simp [Function.comp, h]
    · simp [Function.comp, if_neg h]

/-- C7 (amended): logout always returns 204 and deactivates all of the
user's active records; it also always clears `User.last_refresh_jti` —
even when no active record exists, so in that case it is a no-op only if
the pointer was already empty.  Logout is idempotent: a second call leaves
persisted state exactly as the first left it. -/
theorem c7_logout_idempotent (db : DBState) (uid : Nat) :
    (logout_user db uid).1 = 204 ∧
    (∀ r ∈ (logout_user db uid).2.tokens, r.user_id = uid → r.is_active = false) ∧
    (∀ u ∈ (logout_user db uid).2.users, u.id = uid → u.last_refresh_jti = none) ∧
    logout_user (logout_user db uid).2 uid = logout_user db uid := by
  refine ⟨rfl, ?_, ?_, ?_⟩
  · intro r hr huid
    simp only [logout_user, revoke_refresh_token] at hr
    obtain ⟨t, ht, hft⟩ := List.mem_map.mp hr
    by_cases h : t.user_id = uid ∧ t.is_active = true
    · rw [← hft, if_pos h]
    · rw [← hft, if_neg h]
      rw [← hft, if_neg h] at huid
      cases hact : t.is_active with
      | false => rfl
      | true => exact absurd ⟨huid, hact⟩ h
  · intro u hu huid
    simp only [logout_user, revoke_refresh_token] at hu
    obtain ⟨v, hv, hfv⟩ := List.mem_map.mp hu
    by_cases h : v.id = uid
    · rw [← hfv, if_pos h]
    · rw [← hfv, if_neg h] at huid
      exact absurd huid h
  · show (204, revoke_refresh_token (revoke_refresh_token db uid none true) uid none true)
        = (204, revoke_refresh_token db uid none true)
    rw [revoke_all_idem]

/-- C7 witness: logout at the concrete no-active-record state returns 204
and a second logout leaves the state exactly as the first left it. -/
theorem c7_logout_idempotent_witness :
    (logout_user dbNoActive 1).1 = 204 ∧
    logout_user (logout_user dbNoActive 1).2 1 = logout_user dbNoActive 1 :=
  ⟨(c7_logout_idempotent dbNoActive 1).1, (c7_logout_idempotent dbNoActive 1).2.2.2⟩

/-! ## Claim C8 -/

/-- C8 counterexample: the claim as stated is false at two concrete
inputs of the Unicode-faithful model (`pyIsdigitEx`/`pyToIntEx` are
Python's `str.isdigit` and `int` on the subjects involved).  (i) A
correctly signed, unexpired token with a well-formed subject but no `jti`
claim is rejected 401 "Invalid refresh token" — the `Malformed` message —
not `InvalidPayload`.  (ii) A token whose subject is `"²"` — not a
well-formed user identifier, since `int("²")` raises `ValueError`, yet
`"²".isdigit()` is `True` — passes the subject check and the uncaught
`ValueError` escapes as HTTP 500, again not `InvalidPayload`. -/
theorem c8_counterexample :
    (refresh_access_token_py pyIsdigitEx pyToIntEx cfgEx dbEx tokNoJti 0 "n").result
        = .error .invalidRefresh ∧
    AuthError.invalidRefresh ≠ AuthError.invalidPayloadErr ∧
    AuthError.invalidRefresh.detail = "Invalid refresh token" ∧
    AuthError.invalidPayloadErr.detail = "Invalid token payload" ∧
    pyIsdigitEx "²" = true ∧
    pyToIntEx "²" = none ∧
    (refresh_access_token_py pyIsdigitEx pyToIntEx cfgEx dbEx
        ⟨⟨some "²", some "j0", none, none, 100⟩, "sec", "HS256"⟩ 0 "n").result
      = .error .uncaughtValueError ∧
    AuthError.uncaughtValueError ≠ AuthError.invalidPayloadErr :=
  ⟨rfl, by decide, rfl, rfl, by decide, by decide, rfl, by decide⟩

theorem refresh_py_sub_invalid (pyIsdigit : String → Bool) (pyToInt : String → Option Nat)
    (cfg : Settings) (db : DBState) (t : SignedToken) (now : Int) (newJti : String)
    (hdec : jwtDecode t cfg.secret_key [cfg.algorithm] now = .ok t.claims)
    (hsub : t.claims.sub = none ∨ ∃ s, t.claims.sub = some s ∧ pyIsdigit s = false) :
    refresh_access_token_py pyIsdigit pyToInt cfg db t now newJti
      = { result := .error .invalidPayloadErr, commits := [] } := by
  unfold refresh_access_token_py
  rcases hsub with h | ⟨s, hs, hf⟩
  · simp [hdec, h]
  · simp [hdec, hs, hf]

theorem refresh_py_jti_missing (pyIsdigit : String → Bool) (pyToInt : String → Option Nat)
    (cfg : Settings) (db : DBState) (t : SignedToken) (now : Int) (newJti : String)
    (hdec : jwtDecode t cfg.secret_key [cfg.algorithm] now = .ok t.claims)
    (s : String) (hs : t.claims.sub = some s) (hd : pyIsdigit s = true)
    (hj : t.claims.jti = none) :
    refresh_access_token_py pyIsdigit pyToInt cfg db t now newJti
      = { result := .error .invalidRefresh, commits := [] } := by
  unfold refresh_access_token_py
  simp [hdec, hs, hd, hj]

theorem refresh_py_int_fails (pyIsdigit : String → Bool) (pyToInt : String → Option Nat)
    (cfg : Settings) (db : DBState) (t : SignedToken) (now : Int) (newJti : String)
    (hdec : jwtDecode t cfg.secret_key [cfg.algorithm] now = .ok t.claims)
    (s j : String) (hs : t.claims.sub = some s) (hd : pyIsdigit s = true)
    (hj : t.claims.jti = some j) (hto : pyToInt s = none) :
    refresh_access_token_py pyIsdigit pyToInt cfg db t now newJti
      = { result := .error .uncaughtValueError, commits := [] } := by
  unfold refresh_access_token_py
  simp [hdec, hs, hd, hj, hto]

theorem refresh_py_ascii_instantiation (cfg : Settings) (db : DBState) (tok : SignedToken)
    (now : Int) (newJti : String) :
    refresh_access_token_py isDigits
        (fun s => if isDigits s then some (decimalValue s) else none)
        cfg db tok now newJti
      = refresh_access_token cfg db tok now newJti := by
  unfold refresh_access_token_py refresh_access_token
  cases jwtDecode tok cfg.secret_key [cfg.algorithm] now with
  | expired => rfl
  | malformed => rfl
  | ok payload =>
    cases hsub : payload.sub with
    | none => simp [hsub]
    | some s =>
      cases hd : isDigits s with
      | false => simp [hsub, hd]
      | true =>
        cases hj : payload.jti with
        | none => simp [hsub, hd, hj]
        | some jti => simp [hsub, hd, hj]

/-- C8 (amended): for every refresh token that decodes successfully,
taking the runtime's `str.isdigit` as `pyIsdigit` and `int` as `pyToInt`:
the rotation fails with `InvalidPayload` (401 "Invalid token payload")
exactly for a subject claim that is missing, not a string, or rejected by
`str.isdigit`; a subject accepted by `str.isdigit` with the rotation
identifier claim missing fails with 401 "Invalid refresh token" (the
`Malformed` message), not `InvalidPayload`; a subject accepted by
`str.isdigit` but rejected by `int` (a digit-but-not-decimal subject such
as `"²"`), with a rotation identifier present, escapes as an uncaught
`ValueError` (HTTP 500), not `InvalidPayload`.  In all three cases
nothing is committed and the outcome is independent of the database state
— the checks precede any user lookup or state change. -/
theorem c8_payload_classification (pyIsdigit : String → Bool) (pyToInt : String → Option Nat)
    (cfg : Settings) (db db' : DBState) (t : SignedToken)
    (now : Int) (newJti : String)
    (hkey : t.key = cfg.secret_key) (halg : t.alg = cfg.algorithm)
    (hexp : ¬ t.claims.exp < now) :
    ((t.claims.sub = none ∨ ∃ s, t.claims.sub = some s ∧ pyIsdigit s = false) →
       (refresh_access_token_py pyIsdigit pyToInt cfg db t now newJti).result
           = .error .invalidPayloadErr ∧
       (refresh_access_token_py pyIsdigit pyToInt cfg db t now newJti).commits = [] ∧
       refresh_access_token_py pyIsdigit pyToInt cfg db t now newJti
           = refresh_access_token_py pyIsdigit pyToInt cfg db' t now newJti) ∧
    (∀ s, t.claims.sub = some s → pyIsdigit s = true → t.claims.jti = none →
       (refresh_access_token_py pyIsdigit pyToInt cfg db t now newJti).result
           = .error .invalidRefresh ∧
       (refresh_access_token_py pyIsdigit pyToInt cfg db t now newJti).commits = [] ∧
       refresh_access_token_py pyIsdigit pyToInt cfg db t now newJti
           = refresh_access_token_py pyIsdigit pyToInt cfg db' t now newJti) ∧
    (∀ s j, t.claims.sub = some s → pyIsdigit s = true → t.claims.jti = some j →
       pyToInt s = none →
       (refresh_access_token_py pyIsdigit pyToInt cfg db t now newJti).result
           = .error .uncaughtValueError ∧
       (refresh_access_token_py pyIsdigit pyToInt cfg db t now newJti).commits = [] ∧
       refresh_access_token_py pyIsdigit pyToInt cfg db t now newJti
           = refresh_access_token_py pyIsdigit pyToInt cfg db' t now newJti) := by
  have hdec : jwtDecode t cfg.secret_key [cfg.algorithm] now = .ok t.claims := by
    unfold jwtDecode
    rw [if_pos ⟨hkey, List.mem_singleton.mpr halg⟩, if_neg hexp]
  refine ⟨?_, ?_, ?_⟩
  · intro hsub
    rw [refresh_py_sub_invalid pyIsdigit pyToInt cfg db t now newJti hdec hsub,
      refresh_py_sub_invalid pyIsdigit pyToInt cfg db' t now newJti hdec hsub]
    exact ⟨rfl, rfl, rfl⟩
  · intro s hs hd hj
    rw [refresh_py_jti_missing pyIsdigit pyToInt cfg db t now newJti hdec s hs hd hj,
      refresh_py_jti_missing pyIsdigit pyToInt cfg db' t now newJti hdec s hs hd hj]
    exact ⟨rfl, rfl, rfl⟩
  · intro s j hs hd hj hto
    rw [refresh_py_int_fails pyIsdigit pyToInt cfg db t now newJti hdec s j hs hd hj hto,
      refresh_py_int_fails pyIsdigit pyToInt cfg db' t now newJti hdec s j hs hd hj hto]
    exact ⟨rfl, rfl, rfl⟩

/-- C8 witness: with Python's string semantics on the subjects involved,
a decoded token with subject `"abc"` fails `InvalidPayload` with no
commit; one with subject `"1"` and no rotation identifier fails with the
"Invalid refresh token" message; one with subject `"²"` and a rotation
identifier present escapes as an uncaught `ValueError`; all three ignore
the database. -/
theorem c8_payload_classification_witness :
    ((refresh_access_token_py pyIsdigitEx pyToIntEx cfgEx dbEx
        ⟨⟨some "abc", some "j0", none, none, 100⟩, "sec", "HS256"⟩ 0 "n").result
        = .error .invalidPayloadErr ∧
     (refresh_access_token_py pyIsdigitEx pyToIntEx cfgEx dbEx
        ⟨⟨some "abc", some "j0", none, none, 100⟩, "sec", "HS256"⟩ 0 "n").commits = [] ∧
     refresh_access_token_py pyIsdigitEx pyToIntEx cfgEx dbEx
        ⟨⟨some "abc", some "j0", none, none, 100⟩, "sec", "HS256"⟩ 0 "n"
        = refresh_access_token_py pyIsdigitEx pyToIntEx cfgEx dbNoActive
            ⟨⟨some "abc", some "j0", none, none, 100⟩, "sec", "HS256"⟩ 0 "n") ∧
    ((refresh_access_token_py pyIsdigitEx pyToIntEx cfgEx dbEx tokNoJti 0 "n").result
        = .error .invalidRefresh ∧
     (refresh_access_token_py pyIsdigitEx pyToIntEx cfgEx dbEx tokNoJti 0 "n").commits = [] ∧
     refresh_access_token_py pyIsdigitEx pyToIntEx cfgEx dbEx tokNoJti 0 "n"
        = refresh_access_token_py pyIsdigitEx pyToIntEx cfgEx dbNoActive tokNoJti 0 "n") ∧
    ((refresh_access_token_py pyIsdigitEx pyToIntEx cfgEx dbEx
        ⟨⟨some "²", some "j0", none, none, 100⟩, "sec", "HS256"⟩ 0 "n").result
        = .error .uncaughtValueError ∧
     (refresh_access_token_py pyIsdigitEx pyToIntEx cfgEx dbEx
        ⟨⟨some "²", some "j0", none, none, 100⟩, "sec", "HS256"⟩ 0 "n").commits = [] ∧
     refresh_access_token_py pyIsdigitEx pyToIntEx cfgEx dbEx
        ⟨⟨some "²", some "j0", none, none, 100⟩, "sec", "HS256"⟩ 0 "n"
        = refresh_access_token_py pyIsdigitEx pyToIntEx cfgEx dbNoActive
            ⟨⟨some "²", some "j0", none, none, 100⟩, "sec", "HS256"⟩ 0 "n") :=
  ⟨(c8_payload_classification pyIsdigitEx pyToIntEx cfgEx dbEx dbNoActive
      ⟨⟨some "abc", some "j0", none, none, 100⟩, "sec", "HS256"⟩ 0 "n" rfl rfl (by decide)).1
      (Or.inr ⟨"abc", rfl, by decide⟩),
   (c8_payload_classification pyIsdigitEx pyToIntEx cfgEx dbEx dbNoActive tokNoJti 0 "n"
      rfl rfl (by decide)).2.1 "1" rfl (by decide) rfl,
   (c8_payload_classification pyIsdigitEx pyToIntEx cfgEx dbEx dbNoActive
      ⟨⟨some "²", some "j0", none, none, 100⟩, "sec", "HS256"⟩ 0 "n" rfl rfl (by decide)).2.2
      "²" "j0" rfl (by decide) rfl (by decide)⟩

/-! ## Claim C9 -/

/-- C9: public registration never escalates privilege.  Whatever the
request body contains (including a `role` field), a user created through
the public registration endpoint has role exactly `"user"` — never admin
or guest — and is simply appended to the user table. -/
theorem c9_registration_role (hash : String → String) (db : DBState)
    (body : List (String × String)) (newId : Nat) (db' : DBState) (u : UserRec)
    (h : register_user hash db body newId = .ok (db', u)) :
    u.role = "user" ∧ db'.users = db.users ++ [u] ∧ u.role ≠ "admin" ∧ u.role ≠ "guest" := by
  unfold register_user at h
  split at h
  · exact Except.noConfusion h
  · split at h
    · exact Except.noConfusion h
    · simp only [create_user] at h
      injection h with h2
      have hdb := congrArg Prod.fst h2
      have hu := congrArg Prod.snd h2
      simp only [] at hdb hu
      subst hu
      subst hdb
      refine ⟨rfl, rfl, ?_, ?_⟩
      · show ("user" : String) ≠ "admin"
        decide
      · show ("user" : String) ≠ "guest"
        decide

/-- C9 witness: registering with a body that tries to smuggle
`"role": "admin"` still yields a `"user"`-role account. -/
theorem c9_registration_role_witness :
    (⟨1, "a@x.com", "pw", "user", none⟩ : UserRec).role = "user" ∧
    (⟨[⟨1, "a@x.com", "pw", "user", none⟩], []⟩ : DBState).users
        = (⟨[], []⟩ : DBState).users ++ [⟨1, "a@x.com", "pw", "user", none⟩] ∧
    (⟨1, "a@x.com", "pw", "user", none⟩ : UserRec).role ≠ "admin" ∧
    (⟨1, "a@x.com", "pw", "user", none⟩ : UserRec).role ≠ "guest" :=
  c9_registration_role hashEx ⟨[], []⟩ [("email", "a@x.com"), ("password", "pw"), ("role", "admin")] 1
    ⟨[⟨1, "a@x.com", "pw", "user", none⟩], []⟩ ⟨1, "a@x.com", "pw", "user", none⟩ rfl

/-! ## Claim C10 -/

/-- C10: authentication is cookie-only.  The authorization gate's result
depends only on the request's cookies, never on the `Authorization`
header, and any request lacking the `"access_token"` cookie fails 401
"Not authenticated" — even if a valid signed access token sits in the
header. -/
theorem c10_cookie_only_auth (cfg : Settings) (db : DBState) (now : Int)
    (cookies : List (String × SignedToken)) (a1 a2 : Option SignedToken) :
    get_current_user cfg db ⟨cookies, a1⟩ now = get_current_user cfg db ⟨cookies, a2⟩ now ∧
    (cookieGet ⟨cookies, a1⟩ "access_token" = none →
      get_current_user cfg db ⟨cookies, a1⟩ now = .error .notAuthenticated) := by
  constructor
  · rfl
  · intro h
    unfold get_current_user
    rw [h]

/-- C10 witness: a request with no cookies but a valid signed access
token in the `Authorization` header is still rejected 401 "Not
authenticated", and the gate's answer is unchanged when the header is
dropped. -/
theorem c10_cookie_only_auth_witness :
    get_current_user cfgEx dbEx ⟨[], some (create_access_token cfgEx "1" "user" 0)⟩ 0
        = get_current_user cfgEx dbEx ⟨[], none⟩ 0 ∧
    get_current_user cfgEx dbEx ⟨[], some (create_access_token cfgEx "1" "user" 0)⟩ 0
        = .error .notAuthenticated :=
  ⟨(c10_cookie_only_auth cfgEx dbEx 0 [] (some (create_access_token cfgEx "1" "user" 0)) none).1,
   (c10_cookie_only_auth cfgEx dbEx 0 [] (some (create_access_token cfgEx "1" "user" 0)) none).2 rfl⟩

end KanbanAuth
